import Mathlib

/-!
Shallow embedding of the DMXEnttecPro controller logic: the channel buffer,
the differential submission engine, the send-DMX and set-widget-parameters
frame builders of `Controller`, and the multi-port `Mk2Controller` variant.
Bytes are modelled as `Nat`, byte arrays as `List Nat`, serial writes as the
list of messages handed to the transport, and Python exceptions as
`Option`/error fields.
-/

namespace DMXEnttecPro

/-- State of a `Controller` instance: the configured universe size, the two
mode flags, the mutable channel buffer and the last-submitted snapshot. -/
structure Controller where
  dmx_size : Nat
  auto_submit : Bool
  dynamic_submit : Bool
  channels : List Nat
  last_submitted_channels : List Nat
deriving DecidableEq

/-- Outcome of a call on the controller: the state as the call leaves it, the
messages written to the serial transport, and whether a transport write
failed (raising to the caller). -/
structure SubmitResult where
  state : Controller
  writes : List (List Nat)
  transport_error : Bool
deriving DecidableEq

/-- Outcome of a stateless configuration call: the validation error raised,
if any, and the messages written to the serial transport. -/
structure CallResult where
  err : Option String
  writes : List (List Nat)
deriving DecidableEq

/-- Position of the first mismatch when walking two sequences in step:
embeds the `for i, (v0, v1) in enumerate(zip(...))` loop body of
`Controller._get_minimal_submission`, which stops at the first pair with
`v0 != v1`. -/
def firstMismatch : List Nat → List Nat → Option Nat
  | [], _ => none
  | _, [] => none
  | a :: as, b :: bs =>
      if a ≠ b then some 0 else (firstMismatch as bs).map (· + 1)

/-- Embeds `Controller._get_minimal_submission`: scan `channels` and
`_last_submitted_channels` reversed; on the first mismatch at reverse
offset `i` return `channels[:dmx_size - i]`, otherwise an empty array. -/
def getMinimalSubmission (c : Controller) : List Nat :=
  match firstMismatch c.channels.reverse c.last_submitted_channels.reverse with
  | some i => c.channels.take (c.dmx_size - i)
  | none => []

/-- The value held by the local variable `channels` at the end of the
branching prelude of `Controller.submit` (`none` models the early `return`
when the minimal submission is empty): the minimal slice, promoted to
`self.channels[:24]` when it has at most 24 slots, or the full buffer when
dynamic submission is off. -/
def submitSlice (c : Controller) : Option (List Nat) :=
  if c.dynamic_submit then
    let chs := getMinimalSubmission c
    if chs.length = 0 then none
    else if chs.length ≤ 24 then some (c.channels.take 24)
    else some chs
  else some c.channels

/-- Embeds `Controller.submit`. The message is built exactly as in the
source: label 6, little-endian `len(channels) + 1`, the reserved byte 0, then
`self.channels` (the full buffer, as written in the source) and the end
signal. `write_ok` models whether the transport write succeeds; on failure
the method raises before the snapshot assignment runs, so the state is
returned unchanged. -/
def submit (c : Controller) (write_ok : Bool) : SubmitResult :=
  match submitSlice c with
  | none => ⟨c, [], false⟩
  | some chs =>
      let msg := [0x7E, 6, (chs.length + 1) % 256, ((chs.length + 1) / 256) % 256, 0]
                   ++ c.channels ++ [0xE7]
      if write_ok then
        ⟨{ c with last_submitted_channels := c.channels }, [msg], false⟩
      else
        ⟨c, [], true⟩

/-- Embeds `Controller.set_channel`: `self.channels[channel - 1] = value`,
with Python sequence-index semantics (a negative index counts from the end;
an index out of range raises `IndexError`, a value outside a byte raises
`ValueError`; either way the buffer is left unmodified). -/
def set_channel (c : Controller) (channel : Int) (value : Nat) : Option Controller :=
  if 256 ≤ value then none
  else
    let idx : Int := channel - 1
    let j : Int := if idx < 0 then idx + c.channels.length else idx
    if 0 ≤ j ∧ j < (c.channels.length : Int) then
      some { c with channels := c.channels.set j.toNat value }
    else none

/-- Embeds `Controller.get_channel`: `return self.channels[channel - 1]`,
with Python sequence-index semantics. -/
def get_channel (c : Controller) (channel : Int) : Option Nat :=
  let idx : Int := channel - 1
  let j : Int := if idx < 0 then idx + c.channels.length else idx
  if 0 ≤ j ∧ j < (c.channels.length : Int) then
    c.channels[j.toNat]?
  else none

/-- Embeds `Controller.set_dmx_parameters`: the four range validations in
source order, each raising `ValueError` before any message is built, then a
single message with label 4, the two bytes computed from
`len(user_defined_bytes) + 1`, the three timing bytes, the user-defined
bytes and the end signal. A `None` argument for the user-defined bytes is
passed here as the empty list. -/
def set_dmx_parameters (output_break_time mab_time output_rate : Int)
    (user_defined_bytes : List Nat) : CallResult :=
  if 512 < user_defined_bytes.length then
    ⟨some "Length of user_defined_bytes must not be greater than 512", []⟩
  else if ¬ (9 ≤ output_break_time ∧ output_break_time ≤ 127) then
    ⟨some "output_break_time must be between 9 and 127", []⟩
  else if ¬ (1 ≤ mab_time ∧ mab_time ≤ 127) then
    ⟨some "mab_time must be between 1 and 127", []⟩
  else if ¬ (0 ≤ output_rate ∧ output_rate ≤ 40) then
    ⟨some "output_rate must be between 0 and 40", []⟩
  else
    let msg := [0x7E, 4, (user_defined_bytes.length + 1) % 256,
                ((user_defined_bytes.length + 1) / 256) % 256,
                output_break_time.toNat, mab_time.toNat, output_rate.toNat]
               ++ user_defined_bytes ++ [0xE7]
    ⟨none, [msg]⟩

/-- Spec-side frame codec, written from the specification text alone:
`0x7E ++ label ++ lengthLSB ++ lengthMSB ++ body ++ 0xE7` with the length
field the little-endian byte count of `body`. Used to compare the messages
the code builds against the documented wire format. -/
def encodeFrame (label : Nat) (body : List Nat) : List Nat :=
  [0x7E, label, body.length % 256, (body.length / 256) % 256] ++ body ++ [0xE7]

/-- Modelled from the spec: `least_significant_bit_for_size` is imported by
`controllers/mk2.py` from `DMXEnttecPro.utils` but is absent from the
repository's `utils.py`; the spec describes the bytes it produces as the low
byte of a little-endian length field. -/
def least_significant_bit_for_size (n : Nat) : Nat := n % 256

/-- Modelled from the spec: `most_significant_bit_for_size` is imported by
`controllers/mk2.py` from `DMXEnttecPro.utils` but is absent from the
repository's `utils.py`; the spec describes the bytes it produces as the high
byte of a little-endian length field. -/
def most_significant_bit_for_size (n : Nat) : Nat := (n / 256) % 256

/-- Embeds `Mk2Controller.set_port_widget_parameters`: validations in source
order (user-defined length, port, break time, MAB time, rate), label 4 for
port 1 and 156 for port 2, then one message carrying both little-endian
length fields (`udb_len + 5` and `udb_len`), the timing bytes, the
user-defined bytes and the end signal. -/
def set_port_widget_parameters (port break_time mab_time rate : Int)
    (user_defined_bytes : List Nat) : CallResult :=
  if 512 < user_defined_bytes.length then
    ⟨some "Length of user_defined_bytes must not be greater than 512", []⟩
  else if ¬ (port = 1 ∨ port = 2) then
    ⟨some "port must be 1 or 2", []⟩
  else if ¬ (9 ≤ break_time ∧ break_time ≤ 127) then
    ⟨some "output_break_time must be between 9 and 127", []⟩
  else if ¬ (1 ≤ mab_time ∧ mab_time ≤ 127) then
    ⟨some "mab_time must be between 1 and 127", []⟩
  else if ¬ (0 ≤ rate ∧ rate ≤ 40) then
    ⟨some "output_rate must be between 0 and 40", []⟩
  else
    let label : Nat := if port = 2 then 156 else 4
    let udb_len := user_defined_bytes.length
    let msg := [0x7E, label,
                least_significant_bit_for_size (udb_len + 5),
                most_significant_bit_for_size (udb_len + 5),
                least_significant_bit_for_size udb_len,
                most_significant_bit_for_size udb_len,
                break_time.toNat, mab_time.toNat, rate.toNat]
               ++ user_defined_bytes ++ [0xE7]
    ⟨none, [msg]⟩

/-- Sample state for the last-slot-difference scenario: the smallest legal
universe (24 slots), differential mode on, buffers agreeing everywhere but
the last slot. -/
def lastSlotController : Controller :=
  { dmx_size := 24, auto_submit := false, dynamic_submit := true,
    channels := List.replicate 23 0 ++ [1],
    last_submitted_channels := List.replicate 24 0 }

/-- Sample state for the long-slice scenario: 26 slots, differential mode on,
buffers differing at slot 25 and nowhere after, so the minimal slice has
25 > 24 slots yet is strictly shorter than the buffer. -/
def longSliceController : Controller :=
  { dmx_size := 26, auto_submit := false, dynamic_submit := true,
    channels := List.replicate 24 0 ++ [1, 0],
    last_submitted_channels := List.replicate 26 0 }

/-- Sample all-zero state of the smallest legal universe size. -/
def zeroController : Controller :=
  { dmx_size := 24, auto_submit := false, dynamic_submit := false,
    channels := List.replicate 24 0,
    last_submitted_channels := List.replicate 24 0 }

lemma firstMismatch_self (l : List Nat) : firstMismatch l l = none := by
  induction l with
  | nil => rfl
  | cons a as ih => unfold firstMismatch; simp [ih]

lemma firstMismatch_eq_some (as : List Nat) (bs : List Nat) (i : Nat)
    (hi : i < as.length) (hi2 : i < bs.length)
    (hagree : ∀ j, j < i → as[j]? = bs[j]?) (hdiff : as[i]? ≠ bs[i]?) :
    firstMismatch as bs = some i := by
  induction as generalizing bs i with
  | nil => simp at hi
  | cons a as ih =>
    cases bs with
    | nil => simp at hi2
    | cons b bs =>
      cases i with
      | zero =>
        have hab : a ≠ b := by simpa using hdiff
        unfold firstMismatch
        simp [hab]
      | succ i =>
        have hab : a = b := by
          have h0 := hagree 0 (Nat.succ_pos i)
          simpa using h0
        unfold firstMismatch
        rw [if_neg (by simp [hab])]
        have hrec : firstMismatch as bs = some i :=
          ih bs i (by simpa using hi) (by simpa using hi2)
            (fun j hj => by
              have := hagree (j + 1) (by omega)
              simpa using this)
            (by simpa using hdiff)
        rw [hrec]
        rfl

lemma getMinimalSubmission_eq_nil (c : Controller)
    (h : c.channels = c.last_submitted_channels) : getMinimalSubmission c = [] := by
  unfold getMinimalSubmission
  rw [h, firstMismatch_self]

lemma submit_of_slice_none (c : Controller) (w : Bool) (h : submitSlice c = none) :
    submit c w = ⟨c, [], false⟩ := by
  unfold submit
  rw [h]

lemma submit_of_slice_some_true (c : Controller) (chs : List Nat)
    (h : submitSlice c = some chs) :
    submit c true
      = ⟨{ c with last_submitted_channels := c.channels },
         [[0x7E, 6, (chs.length + 1) % 256, ((chs.length + 1) / 256) % 256, 0]
           ++ c.channels ++ [0xE7]], false⟩ := by
  unfold submit
  rw [h]
  rfl

lemma submit_of_slice_some_false (c : Controller) (chs : List Nat)
    (h : submitSlice c = some chs) :
    submit c false = ⟨c, [], true⟩ := by
  unfold submit
  rw [h]
  rfl

lemma submitSlice_of_min_nil (c : Controller) (hdyn : c.dynamic_submit = true)
    (h : getMinimalSubmission c = []) : submitSlice c = none := by
  unfold submitSlice
  simp [hdyn, h]

/-- C10: `submit` never modifies the current channel buffer, the configured
buffer size, or the mode flags; the only controller state it can change is
the last-submitted snapshot. -/
theorem submit_frame_effect (c : Controller) (w : Bool) :
    (submit c w).state.channels = c.channels
    ∧ (submit c w).state.dmx_size = c.dmx_size
    ∧ (submit c w).state.auto_submit = c.auto_submit
    ∧ (submit c w).state.dynamic_submit = c.dynamic_submit := by
  cases h : submitSlice c with
  | none => rw [submit_of_slice_none c w h]; exact ⟨rfl, rfl, rfl, rfl⟩
  | some chs =>
    cases w
    · rw [submit_of_slice_some_false c chs h]; exact ⟨rfl, rfl, rfl, rfl⟩
    · rw [submit_of_slice_some_true c chs h]; exact ⟨rfl, rfl, rfl, rfl⟩

/-- C7: when the transport write fails during `submit`, the error propagates
to the caller (whenever a write was attempted at all), nothing is recorded as
written, and both the channel buffer and the last-submitted snapshot are left
exactly as they were. -/
theorem submit_write_failure_preserves_state (c : Controller) :
    (submit c false).state = c
    ∧ (submit c false).writes = []
    ∧ ((submit c true).writes ≠ [] → (submit c false).transport_error = true) := by
  cases h : submitSlice c with
  | none =>
    rw [submit_of_slice_none c false h, submit_of_slice_none c true h]
    exact ⟨rfl, rfl, fun hne => absurd rfl hne⟩
  | some chs =>
    rw [submit_of_slice_some_false c chs h]
    exact ⟨rfl, rfl, fun _ => rfl⟩

/-- C6: any `submit` call that actually writes a frame sets the
last-submitted snapshot to a copy of the entire current buffer, and under
differential (dynamic) mode a second `submit` with no intervening channel
mutation writes nothing at all. -/
theorem submit_snapshot_full_copy (c : Controller) :
    ((submit c true).writes ≠ []
       → (submit c true).state.last_submitted_channels = c.channels)
    ∧ (c.dynamic_submit = true
       → (submit (submit c true).state true).writes = []) := by
  cases h : submitSlice c with
  | none =>
    rw [submit_of_slice_none c true h]
    exact ⟨fun hne => absurd rfl hne, fun _ => by
      rw [submit_of_slice_none c true h]⟩
  | some chs =>
    rw [submit_of_slice_some_true c chs h]
    refine ⟨fun _ => rfl, fun hdyn => ?_⟩
    have hnil : getMinimalSubmission
        { c with last_submitted_channels := c.channels } = [] :=
      getMinimalSubmission_eq_nil _ rfl
    have hslice : submitSlice { c with last_submitted_channels := c.channels } = none :=
      submitSlice_of_min_nil _ hdyn hnil
    rw [submit_of_slice_none _ true hslice]

/-- Closed witness for `submit_snapshot_full_copy` at a concrete state whose
first `submit` does write a frame. -/
theorem submit_snapshot_full_copy_witness :
    (submit lastSlotController true).state.last_submitted_channels
        = lastSlotController.channels
    ∧ (submit (submit lastSlotController true).state true).writes = [] :=
  ⟨(submit_snapshot_full_copy lastSlotController).1 (by decide),
   (submit_snapshot_full_copy lastSlotController).2 (by decide)⟩

/-- Closed witness for `submit_write_failure_preserves_state` at a concrete
state whose `submit` does attempt a write. -/
theorem submit_write_failure_preserves_state_witness :
    (submit lastSlotController false).state = lastSlotController
    ∧ (submit lastSlotController false).writes = []
    ∧ (submit lastSlotController false).transport_error = true :=
  ⟨(submit_write_failure_preserves_state lastSlotController).1,
   (submit_write_failure_preserves_state lastSlotController).2.1,
   (submit_write_failure_preserves_state lastSlotController).2.2 (by decide)⟩

/-- C1: at `longSliceController` the minimal slice has 25 slots (non-empty
and longer than 24), and `submit` writes one frame whose length field is
`25 + 1` but whose body is the reserved byte followed by the FULL 26-slot
buffer, not the 25-slot minimal slice: the source writes `self.channels`
rather than the local `channels` into the message, contradicting the class
docstring ("sends only as many channels as necessary") and leaving the
length field inconsistent with the body. -/
theorem submit_dynamic_sends_full_buffer_bug :
    (getMinimalSubmission longSliceController).length = 25
    ∧ (submit longSliceController true).writes
        = [[0x7E, 6, 26, 0, 0] ++ longSliceController.channels ++ [0xE7]]
    ∧ (submit longSliceController true).writes
        ≠ [[0x7E, 6, 26, 0, 0] ++ getMinimalSubmission longSliceController ++ [0xE7]] := by
  decide

/-- C5: at `breakTime = 9`, `mabTime = 1`, `outputRate = 40` and empty
user-defined bytes, `set_dmx_parameters` writes
`[0x7E, 4, 1, 0, 9, 1, 40, 0xE7]`: the two bytes after the label encode
`len(userDefinedBytes) + 1` (despite the source comment calling them the
user-defined length) and stand where the frame length field belongs, so the
message is not the documented frame whose body starts with the little-endian
length of the user-defined bytes alone. -/
theorem set_dmx_parameters_length_field_bug :
    set_dmx_parameters 9 1 40 []
        = ⟨none, [[0x7E, 4, 1, 0, 9, 1, 40, 0xE7]]⟩
    ∧ [0x7E, 4, 1, 0, 9, 1, 40, 0xE7]
        ≠ encodeFrame 4 ([0, 0, 9, 1, 40] ++ ([] : List Nat)) := by
  decide

/-- C2 counterexample: with 24-slot buffers differing only at the last slot,
the minimal submission has length 24 (the full buffer, which must include
the changed last slot), not length 1 as claimed. -/
theorem minimal_last_slot_length_counterexample :
    (getMinimalSubmission lastSlotController).length = 24
    ∧ ¬ (getMinimalSubmission lastSlotController).length = 1 := by
  decide

/-- C4 counterexample: channel index 0 lies outside `[1, N]`, yet
`set_channel` does not fail: Python index `-1` wraps around, so the call
succeeds and stores the value in the LAST slot, and `get_channel 0` likewise
returns the last slot instead of failing. -/
theorem channel_index_wraparound_counterexample :
    set_channel zeroController 0 7
        = some { zeroController with channels := (List.replicate 23 0) ++ [7] }
    ∧ get_channel zeroController 0 = some 0 := by
  decide

lemma getMinimalSubmission_of_mismatch (c : Controller) (i : Nat)
    (hlen : c.channels.length = c.dmx_size)
    (hlast : c.last_submitted_channels.length = c.dmx_size)
    (hi : i < c.dmx_size)
    (hagree : ∀ j, j < i →
      c.channels[c.dmx_size - 1 - j]? = c.last_submitted_channels[c.dmx_size - 1 - j]?)
    (hdiff : c.channels[c.dmx_size - 1 - i]? ≠ c.last_submitted_channels[c.dmx_size - 1 - i]?) :
    getMinimalSubmission c = c.channels.take (c.dmx_size - i) := by
  have hrev : firstMismatch c.channels.reverse c.last_submitted_channels.reverse = some i := by
    apply firstMismatch_eq_some
    · rw [List.length_reverse, hlen]; exact hi
    · rw [List.length_reverse, hlast]; exact hi
    · intro j hj
      rw [List.getElem?_reverse (by omega), List.getElem?_reverse (by omega),
        hlen, hlast]
      exact hagree j hj
    · rw [List.getElem?_reverse (by omega), List.getElem?_reverse (by omega),
        hlen, hlast]
      exact hdiff
  unfold getMinimalSubmission
  rw [hrev]

/-- C3: the differential engine returns the empty sequence when the two
equal-length buffers coincide; when they differ, with `i` the 0-based
reverse-offset of the first mismatch met scanning from the last slot
backward, it returns the prefix `current[0 .. N - i)`; in particular for
`N = 512` and a difference at slot 100 (1-based) with no difference after
it, the result is exactly the first 100 bytes of `current`. -/
theorem minimal_submission_characterization (c : Controller)
    (hlen : c.channels.length = c.dmx_size)
    (hlast : c.last_submitted_channels.length = c.dmx_size) :
    (c.channels = c.last_submitted_channels → getMinimalSubmission c = [])
    ∧ (∀ i, i < c.dmx_size →
        (∀ j, j < i →
          c.channels[c.dmx_size - 1 - j]? = c.last_submitted_channels[c.dmx_size - 1 - j]?)
        → c.channels[c.dmx_size - 1 - i]? ≠ c.last_submitted_channels[c.dmx_size - 1 - i]?
        → getMinimalSubmission c = c.channels.take (c.dmx_size - i))
    ∧ (c.dmx_size = 512
        → c.channels[99]? ≠ c.last_submitted_channels[99]?
        → c.channels.drop 100 = c.last_submitted_channels.drop 100
        → getMinimalSubmission c = c.channels.take 100) := by
  refine ⟨getMinimalSubmission_eq_nil c, ?_, ?_⟩
  · intro i hi hagree hdiff
    exact getMinimalSubmission_of_mismatch c i hlen hlast hi hagree hdiff
  · intro h512 hdiff hdrop
    have h : getMinimalSubmission c = c.channels.take (c.dmx_size - 412) := by
      apply getMinimalSubmission_of_mismatch c 412 hlen hlast (by omega)
      · intro j hj
        have hgoal : c.dmx_size - 1 - j = 100 + (411 - j) := by omega
        rw [hgoal, ← List.getElem?_drop, ← List.getElem?_drop, hdrop]
      · have hgoal : c.dmx_size - 1 - 412 = 99 := by omega
        rw [hgoal]
        exact hdiff
    rw [h, h512]

set_option maxRecDepth 40000 in
/-- Closed witness for `minimal_submission_characterization`: 512-slot
buffers differing exactly at slot 100 yield the first 100 bytes of the
current buffer. -/
theorem minimal_submission_characterization_witness :
    getMinimalSubmission
        { dmx_size := 512, auto_submit := false, dynamic_submit := true,
          channels := List.replicate 99 0 ++ 7 :: List.replicate 412 0,
          last_submitted_channels := List.replicate 512 0 }
      = (List.replicate 99 0 ++ 7 :: List.replicate 412 0).take 100 :=
  (minimal_submission_characterization
      { dmx_size := 512, auto_submit := false, dynamic_submit := true,
        channels := List.replicate 99 0 ++ 7 :: List.replicate 412 0,
        last_submitted_channels := List.replicate 512 0 }
      (by decide) (by decide)).2.2 (by decide) (by decide) (by decide)

/-- C2 (amended): when `current` differs from `lastSubmitted` only at the
last slot, the minimal submission is the FULL current buffer (length `N`,
since the slice must still include the changed last slot), and `submit`
under differential mode then writes one frame with length field `N + 1`
over the full buffer. -/
theorem minimal_last_slot_amended (c : Controller)
    (hlen : c.channels.length = c.dmx_size)
    (hlast : c.last_submitted_channels.length = c.dmx_size)
    (hN : 24 ≤ c.dmx_size)
    (hdyn : c.dynamic_submit = true)
    (_hsame : c.channels.dropLast = c.last_submitted_channels.dropLast)
    (hdiff : c.channels.getLast? ≠ c.last_submitted_channels.getLast?) :
    getMinimalSubmission c = c.channels
    ∧ (submit c true).writes
        = [[0x7E, 6, (c.dmx_size + 1) % 256, ((c.dmx_size + 1) / 256) % 256, 0]
            ++ c.channels ++ [0xE7]] := by
  have hmin : getMinimalSubmission c = c.channels := by
    have h0 : getMinimalSubmission c = c.channels.take (c.dmx_size - 0) := by
      apply getMinimalSubmission_of_mismatch c 0 hlen hlast (by omega)
      · intro j hj
        omega
      · rw [← hlen, Nat.sub_zero, ← List.getLast?_eq_getElem?,
          hlen, ← hlast, ← List.getLast?_eq_getElem?]
        exact hdiff
    rw [h0, Nat.sub_zero, ← hlen, List.take_length]
  obtain ⟨chs, hslice, hchs⟩ :
      ∃ chs, submitSlice c = some chs ∧ chs.length = c.dmx_size := by
    unfold submitSlice
    rw [hdyn, if_pos rfl, hmin]
    by_cases h24 : c.channels.length ≤ 24
    · rw [if_neg (by omega), if_pos h24]
      exact ⟨_, rfl, by rw [List.length_take]; omega⟩
    · rw [if_neg (by omega), if_neg h24]
      exact ⟨_, rfl, hlen⟩
  refine ⟨hmin, ?_⟩
  rw [submit_of_slice_some_true c chs hslice, hchs]

/-- Closed witness for `minimal_last_slot_amended` at 24-slot buffers
differing only in the last slot. -/
theorem minimal_last_slot_amended_witness :
    getMinimalSubmission lastSlotController = lastSlotController.channels
    ∧ (submit lastSlotController true).writes
        = [[0x7E, 6, 25, 0, 0] ++ lastSlotController.channels ++ [0xE7]] := by
  have h := minimal_last_slot_amended lastSlotController (by decide) (by decide)
    (by decide) (by decide) (by decide) (by decide)
  exact ⟨h.1, h.2.trans (by decide)⟩

/-- C4 (amended): `set_channel` and `get_channel` succeed for every channel
index in `[1, N]` (storing the byte, returning the slot value), fail and
leave the buffer untouched for every index above `N` or below `1 - N`, but
for an index in `[1 - N, 0]` they do NOT fail: Python sequence indexing
wraps around and they access slot `index + N` instead. -/
theorem channel_access_amended (c : Controller) (ch : Int) (v : Nat)
    (hlen : c.channels.length = c.dmx_size) (hv : v < 256) :
    ((1 ≤ ch ∧ ch ≤ (c.dmx_size : Int)) →
        set_channel c ch v
            = some { c with channels := c.channels.set (ch - 1).toNat v }
        ∧ get_channel c ch = c.channels[(ch - 1).toNat]?)
    ∧ ((ch < 1 - (c.dmx_size : Int) ∨ (c.dmx_size : Int) < ch) →
        set_channel c ch v = none ∧ get_channel c ch = none)
    ∧ ((1 - (c.dmx_size : Int) ≤ ch ∧ ch ≤ 0) →
        set_channel c ch v
            = some { c with channels := c.channels.set (ch - 1 + c.dmx_size).toNat v }
        ∧ get_channel c ch = c.channels[(ch - 1 + c.dmx_size).toNat]?) := by
  simp only [set_channel, get_channel]
  rw [if_neg (by omega), hlen]
  refine ⟨fun hin => ?_, fun hout => ?_, fun hwrap => ?_⟩ <;>
    split_ifs with h1 h2 h3 <;>
      first
        | exact ⟨rfl, rfl⟩
        | (exfalso; omega)

/-- Closed witness for `channel_access_amended`: slot 1 of a 24-slot buffer
is written and read back without error. -/
theorem channel_access_amended_witness :
    set_channel zeroController 1 7
        = some { zeroController with channels := (List.replicate 24 0).set 0 7 }
    ∧ get_channel zeroController 1 = some 0 := by
  have h := (channel_access_amended zeroController 1 7 (by decide) (by decide)).1
    (by constructor <;> decide)
  exact ⟨h.1, h.2.trans (by decide)⟩

/-- C8: `set_dmx_parameters` raises `ValueError` exactly when a parameter is
out of range (break time outside `[9, 127]`, MAB time outside `[1, 127]`,
output rate outside `[0, 40]`, or more than 512 user-defined bytes), and
when it raises it writes nothing to the transport. -/
theorem set_dmx_parameters_validation (bt mab rate : Int) (udb : List Nat) :
    ((set_dmx_parameters bt mab rate udb).err.isSome
        ↔ (bt < 9 ∨ 127 < bt ∨ mab < 1 ∨ 127 < mab
            ∨ rate < 0 ∨ 40 < rate ∨ 512 < udb.length))
    ∧ ((set_dmx_parameters bt mab rate udb).err.isSome
        → (set_dmx_parameters bt mab rate udb).writes = []) := by
  unfold set_dmx_parameters
  split_ifs with h1 h2 h3 h4 <;> refine ⟨?_, fun _ => ?_⟩ <;> simp_all <;> omega

/-- Closed witness for `set_dmx_parameters_validation`: `breakTime = 8` is
rejected and nothing is written. -/
theorem set_dmx_parameters_validation_witness :
    (set_dmx_parameters 8 1 40 []).err.isSome
    ∧ (set_dmx_parameters 8 1 40 []).writes = [] := by
  have h := set_dmx_parameters_validation 8 1 40 []
  have herr := h.1.mpr (by simp)
  exact ⟨herr, h.2 herr⟩

/-- C9: `set_port_widget_parameters` uses label 4 for port 1 and 156 for
port 2, and for every valid parameter set writes one message whose body is
the little-endian length of the user-defined bytes plus 5, then the
little-endian length of the user-defined bytes alone, then break time, MAB
time, rate, and the user-defined bytes. -/
theorem set_port_widget_parameters_labels_and_body
    (port bt mab rate : Int) (udb : List Nat)
    (hudb : udb.length ≤ 512) (hport : port = 1 ∨ port = 2)
    (hbt : 9 ≤ bt ∧ bt ≤ 127) (hmab : 1 ≤ mab ∧ mab ≤ 127)
    (hrate : 0 ≤ rate ∧ rate ≤ 40) :
    set_port_widget_parameters port bt mab rate udb
      = ⟨none, [[0x7E, if port = 2 then 156 else 4,
                 (udb.length + 5) % 256, ((udb.length + 5) / 256) % 256,
                 udb.length % 256, (udb.length / 256) % 256,
                 bt.toNat, mab.toNat, rate.toNat] ++ udb ++ [0xE7]]⟩ := by
  unfold set_port_widget_parameters
  rw [if_neg (by omega), if_neg (not_not_intro hport), if_neg (not_not_intro hbt),
    if_neg (not_not_intro hmab), if_neg (not_not_intro hrate)]
  rfl

/-- Closed witness for `set_port_widget_parameters_labels_and_body` at
port 2 with three user-defined bytes. -/
theorem set_port_widget_parameters_labels_and_body_witness :
    set_port_widget_parameters 2 9 1 40 [1, 2, 3]
      = ⟨none, [[0x7E, 156, 8, 0, 3, 0, 9, 1, 40, 1, 2, 3, 0xE7]]⟩ :=
  (set_port_widget_parameters_labels_and_body 2 9 1 40 [1, 2, 3]
      (by decide) (Or.inr rfl) (by constructor <;> decide)
      (by constructor <;> decide) (by constructor <;> decide)).trans (by decide)

end DMXEnttecPro
